import Mathlib

/-!
Shallow embedding of the biorhythm chart engine (`src/biorythm.py`).

Modelling conventions:
* `datetime` values (always at midnight here) are integer day numbers, so the
  Python `(d2 - d1).days` becomes plain integer subtraction.
* Python floats are modelled by `ℚ` where the code only transports and
  compares values (critical-day detection, chart positions, the exported
  records), and by `ℝ` where the trigonometric definition of the cycle
  values is itself at stake (periodicity).
* Python `%` on `int` is non-negative for a positive modulus, which is
  exactly `Int.emod`, the `%` of `ℤ`.
* `str.lower()` is modelled by mapping `Char.toLower` over the characters.
-/

namespace Biorythm

/-- Constant `PHYSICAL_CYCLE_DAYS = 23` (src/biorythm.py line 78). -/
def PHYSICAL_CYCLE_DAYS : ℕ := 23

/-- Constant `EMOTIONAL_CYCLE_DAYS = 28` (line 79). -/
def EMOTIONAL_CYCLE_DAYS : ℕ := 28

/-- Constant `INTELLECTUAL_CYCLE_DAYS = 33` (line 80). -/
def INTELLECTUAL_CYCLE_DAYS : ℕ := 33

/-- Constant `MIN_CHART_WIDTH = 12` (line 81). -/
def MIN_CHART_WIDTH : ℕ := 12

/-- Constant `CRITICAL_DAY_THRESHOLD = 0.05` (line 86). -/
def CRITICAL_DAY_THRESHOLD : ℚ := 0.05

/-- Method `BiorhythmCalculator.is_critical_day` (lines 132-142): appends the name of
each cycle whose absolute value is at most the threshold, in the fixed order
Physical, Emotional, Intellectual, and returns
`(len(critical_cycles) > 0, critical_cycles)`. -/
def is_critical_day (physical emotional intellectual : ℚ) : Bool × List String :=
  let l1 : List String := if |physical| ≤ CRITICAL_DAY_THRESHOLD then ["Physical"] else []
  let l2 : List String := if |emotional| ≤ CRITICAL_DAY_THRESHOLD then l1 ++ ["Emotional"] else l1
  let l3 : List String :=
    if |intellectual| ≤ CRITICAL_DAY_THRESHOLD then l2 ++ ["Intellectual"] else l2
  (decide (0 < l3.length), l3)

/-- One column of `BiorhythmCalculator._calculate_chart_positions`
(lines 154-160): `math.floor(value * (self.midwidth - 1)) + self.midwidth`. -/
def chart_pos (value : ℚ) (midwidth : ℕ) : ℤ :=
  ⌊value * ((midwidth : ℚ) - 1)⌋ + (midwidth : ℤ)

/-- Method `BiorhythmCalculator._calculate_chart_positions` (lines 154-160). -/
def calculate_chart_positions (midwidth : ℕ)
    (physical emotional intellectual : ℚ) : ℤ × ℤ × ℤ :=
  (chart_pos physical midwidth, chart_pos emotional midwidth,
   chart_pos intellectual midwidth)

/-- Method `BiorhythmCalculator._create_chart_line` (lines 162-186): background fill,
center colon, the three cycle markers, then the three pairwise overlap checks
in source order (p-e, e-i, i-p). -/
def create_chart_line (width midwidth p_pos e_pos i_pos : ℕ)
    (is_plot_date is_critical : Bool) : List Char :=
  let space_char : Char := if is_plot_date then '-' else if is_critical then '.' else ' '
  let l1 := (List.replicate width space_char).set midwidth ':'
  let marker_p : Char := if is_critical then 'P' else 'p'
  let marker_e : Char := if is_critical then 'E' else 'e'
  let marker_i : Char := if is_critical then 'I' else 'i'
  let l2 := ((l1.set p_pos marker_p).set e_pos marker_e).set i_pos marker_i
  let star : Char := if is_critical then '!' else '*'
  let l3 := if p_pos = e_pos then l2.set p_pos star else l2
  let l4 := if e_pos = i_pos then l3.set e_pos star else l3
  if i_pos = p_pos then l4.set i_pos star else l4

/-- Model of Python `str.lower()` (ASCII-faithful): lowercase every character. -/
def str_lower (s : String) : String := ⟨s.data.map Char.toLower⟩

/-- The state a successfully constructed `BiorhythmCalculator` carries
(lines 100-116). -/
structure BiorhythmCalculator where
  width : ℤ
  days : ℤ
  orientation : String
  midwidth : ℤ
  middays : ℤ
deriving DecidableEq

/-- Constructor `BiorhythmCalculator.__init__` (lines 100-130): `_validate_chart_parameters`
(width then days, each must be a positive integer), `_validate_orientation`
(lower-cased value must be vertical or horizontal), then
`self.width = max(width, MIN_CHART_WIDTH)`, `self.days = days`,
`self.orientation = orientation.lower()`, and the floored half-widths.
A raised `ChartParameterError` is the `Except.error` branch. -/
def biorhythm_calculator_init (width days : ℤ) (orientation : String) :
    Except String BiorhythmCalculator :=
  if width < 1 then
    Except.error ("Width must be a positive integer, got: " ++ toString width)
  else if days < 1 then
    Except.error ("Days must be a positive integer, got: " ++ toString days)
  else if str_lower orientation ∈ (["vertical", "horizontal"] : List String) then
    let w : ℤ := max width (MIN_CHART_WIDTH : ℤ)
    Except.ok
      { width := w, days := days, orientation := str_lower orientation,
        midwidth := w / 2, middays := days / 2 }
  else
    Except.error ("Orientation must be vertical or horizontal, got: " ++ orientation)

/-- Whether an `Except` result is the success branch. -/
def except_is_ok {ε α : Type} (r : Except ε α) : Bool :=
  match r with
  | Except.ok _ => true
  | Except.error _ => false

/-- One element of the exported `data` list (lines 439-446). -/
structure TimeseriesEntry where
  date : ℤ
  days_alive : ℤ
  physical : ℚ
  emotional : ℚ
  intellectual : ℚ
  critical_cycles : List String
deriving DecidableEq

/-- Placeholder entry used only as the default of `List.getD`. -/
def dummy_entry : TimeseriesEntry :=
  { date := 0, days_alive := 0, physical := 0, emotional := 0, intellectual := 0,
    critical_cycles := [] }

/-- One element of the exported `critical_days` list (lines 449-452). -/
structure CriticalDayEntry where
  date : ℤ
  cycles : List String
deriving DecidableEq

/-- The exported `meta` object (lines 460-474). -/
structure TimeseriesMeta where
  generator : String
  version : String
  birthdate : ℤ
  plot_date : ℤ
  days_alive : ℤ
  physical_cycle_days : ℕ
  emotional_cycle_days : ℕ
  intellectual_cycle_days : ℕ
  chart_orientation : String
  days : ℕ
  width : ℕ
deriving DecidableEq

/-- The exported `cycle_repeats` object (lines 475-478). -/
structure CycleRepeats where
  physical_emotional_repeat_in_days : ℤ
  all_cycles_repeat_in_days : ℤ
deriving DecidableEq

/-- The full payload returned by `generate_timeseries_json` (lines 459-481). -/
structure TimeseriesPayload where
  meta : TimeseriesMeta
  cycle_repeats : CycleRepeats
  critical_days : List CriticalDayEntry
  data : List TimeseriesEntry
deriving DecidableEq

/-- The record built for one `day_offset` of the export loop of
`generate_timeseries_json` (lines 434-447). -/
def timeseries_entry_at (vals : ℤ → ℤ → ℚ × ℚ × ℚ) (birthdate start_date : ℤ)
    (day_offset : ℕ) : TimeseriesEntry :=
  let current_date : ℤ := start_date + (day_offset : ℤ)
  let days_alive : ℤ := current_date - birthdate
  let v := vals birthdate current_date
  { date := current_date, days_alive := days_alive, physical := v.1,
    emotional := v.2.1, intellectual := v.2.2,
    critical_cycles := (is_critical_day v.1 v.2.1 v.2.2).2 }

/-- Method `BiorhythmCalculator.generate_timeseries_json` (lines 420-481), with the
calculator already configured to `days`/`width` (so `middays = days / 2`) and
an explicit `plot_date`.  The float results of `calculate_biorhythm_values`
are abstracted by the parameter `vals : birthdate → current_date → (p, e, i)`;
everything else (windowing, per-day records, critical-day summary, meta and
cycle-repeat arithmetic) is embedded concretely. -/
def generate_timeseries_json (vals : ℤ → ℤ → ℚ × ℚ × ℚ) (days width : ℕ)
    (birthdate plot_date : ℤ) (chart_orientation : String) : TimeseriesPayload :=
  let middays : ℕ := days / 2
  let start_date : ℤ := plot_date - (middays : ℤ)
  let timeseries : List TimeseriesEntry :=
    (List.range days).map (timeseries_entry_at vals birthdate start_date)
  let critical_days : List CriticalDayEntry := (List.range days).filterMap (fun day_offset =>
    let current_date : ℤ := start_date + (day_offset : ℤ)
    let v := vals birthdate current_date
    let r := is_critical_day v.1 v.2.1 v.2.2
    if r.1 then some { date := current_date, cycles := r.2 } else none)
  let days_alive : ℤ := plot_date - birthdate
  { meta :=
      { generator := "biorhythm_enhanced.py", version := "2025-08-07",
        birthdate := birthdate, plot_date := plot_date, days_alive := days_alive,
        physical_cycle_days := PHYSICAL_CYCLE_DAYS,
        emotional_cycle_days := EMOTIONAL_CYCLE_DAYS,
        intellectual_cycle_days := INTELLECTUAL_CYCLE_DAYS,
        chart_orientation := chart_orientation, days := days, width := width },
    cycle_repeats :=
      { physical_emotional_repeat_in_days := 644 - days_alive % 644,
        all_cycles_repeat_in_days := 21252 - days_alive % 21252 },
    critical_days := critical_days,
    data := timeseries }

/-- The two "days until cycles repeat" figures computed by
`BiorhythmCalculator._print_chart_header` (lines 208-209):
`644 - (days_alive % 644)` and `21252 - (days_alive % 21252)`. -/
def print_chart_header_cycle_info (days_alive : ℤ) : ℤ × ℤ :=
  (644 - days_alive % 644, 21252 - days_alive % 21252)

/-- What a caller of `generate_chart` can observe: the complete printed chart,
a raised `BiorhythmError`, or a raw (non-domain) exception escaping. -/
inductive ChartOutcome where
  | ok (lines : List String)
  | biorhythmError (msg : String)
  | rawException (msg : String)
deriving DecidableEq

/-- Whether a `ChartOutcome` is a raw, non-domain exception. -/
def chart_outcome_is_raw (o : ChartOutcome) : Bool :=
  match o with
  | ChartOutcome.rawException _ => true
  | _ => false

/-- One cycle value of `BiorhythmCalculator.calculate_biorhythm_values`
(lines 144-152): `math.sin((2 * math.pi * days_alive) / period)`, in exact
real arithmetic. -/
noncomputable def cycle_value (period : ℕ) (birthdate target_date : ℤ) : ℝ :=
  Real.sin (2 * Real.pi * ((target_date - birthdate : ℤ) : ℝ) / (period : ℝ))

/-- Method `BiorhythmCalculator.calculate_biorhythm_values` (lines 144-152). -/
noncomputable def calculate_biorhythm_values (birthdate target_date : ℤ) : ℝ × ℝ × ℝ :=
  (cycle_value PHYSICAL_CYCLE_DAYS birthdate target_date,
   cycle_value EMOTIONAL_CYCLE_DAYS birthdate target_date,
   cycle_value INTELLECTUAL_CYCLE_DAYS birthdate target_date)

/-- A degenerate stand-in for the float evaluator, used by concrete witnesses. -/
def zero_vals : ℤ → ℤ → ℚ × ℚ × ℚ := fun _ _ => (0, 0, 0)

/-- Smallest Python `datetime` as a proleptic-Gregorian ordinal:
`datetime.min.toordinal() = 1` (0001-01-01). -/
def DATETIME_MIN_ORDINAL : ℤ := 1

/-- Largest Python `datetime` as a proleptic-Gregorian ordinal:
`datetime.max.toordinal() = 3652059` (9999-12-31). -/
def DATETIME_MAX_ORDINAL : ℤ := 3652059

/-- Python `datetime - timedelta(days=n)`: the shifted date when it stays in
the representable range, a raised `OverflowError` otherwise. -/
def date_sub_days (d n : ℤ) : Except String ℤ :=
  if DATETIME_MIN_ORDINAL ≤ d - n ∧ d - n ≤ DATETIME_MAX_ORDINAL then Except.ok (d - n)
  else Except.error "OverflowError: date value out of range"

/-- An exception as the caller of the export sees it: a raw Python exception
or the wrapped domain error `BiorhythmError`. -/
inductive PyError where
  | raw (msg : String)
  | biorhythmError (msg : String)
deriving DecidableEq

/-- Whether a finished export call surfaced a domain-wrapped
`BiorhythmError`. -/
def payload_error_is_wrapped (r : Except PyError TimeseriesPayload) : Bool :=
  match r with
  | Except.error (PyError.biorhythmError _) => true
  | _ => false

/-- Method `generate_timeseries_json` with the range of Python `datetime`
made explicit (dates as ordinals): line 433
`start_date = plot_date - timedelta(days=self.middays)` and the
per-iteration `start_date + timedelta(days=day_offset)` of line 435 raise
`OverflowError` outside `[DATETIME_MIN_ORDINAL, DATETIME_MAX_ORDINAL]`, and
the method body contains no `try/except`, so the raw exception propagates to
the caller unwrapped and the locally accumulated records are discarded.
When every date stays in range the result is the full payload of
`generate_timeseries_json`. -/
def generate_timeseries_json_checked (vals : ℤ → ℤ → ℚ × ℚ × ℚ) (days width : ℕ)
    (birthdate plot_date : ℤ) (chart_orientation : String) :
    Except PyError TimeseriesPayload :=
  match date_sub_days plot_date ((days / 2 : ℕ) : ℤ) with
  | Except.error m => Except.error (PyError.raw m)
  | Except.ok start_date =>
      if days = 0 ∨ start_date + ((days : ℤ) - 1) ≤ DATETIME_MAX_ORDINAL then
        Except.ok (generate_timeseries_json vals days width birthdate plot_date
          chart_orientation)
      else Except.error (PyError.raw "OverflowError: date value out of range")

/-- Method `generate_chart` (lines 224-243) with its output stream made
explicit.  The header lines are printed (line 232) before the chart body
runs, both inside the `try`; a body failure `e` is wrapped by the `except`
clause into `BiorhythmError("Failed to generate chart: " + e)`, but the
already-printed header cannot be unprinted.  The first component is what is
on stdout when the call returns: the full output on success, the header
alone when the body fails (in the reachable failure, the overflow of
`start_date = plot_date - timedelta(days=self.middays)` at line 249, the
body fails before printing any chart line). -/
def generate_chart_run (header : List String) (body : Except String (List String)) :
    List String × ChartOutcome :=
  match body with
  | Except.ok lines => (header ++ lines, ChartOutcome.ok (header ++ lines))
  | Except.error e =>
      (header, ChartOutcome.biorhythmError ("Failed to generate chart: " ++ e))

/-! ## Helper lemmas -/

lemma getD_set (l : List Char) (idx j : ℕ) (a d : Char) (h : idx < l.length) :
    (l.set idx a).getD j d = if j = idx then a else l.getD j d := by
  by_cases hj : j = idx
  · subst hj
    simp [List.getD_eq_getElem?_getD, List.getElem?_set_self, h]
  · simp [List.getD_eq_getElem?_getD, List.getElem?_set_ne (Ne.symm hj), hj]

lemma getD_replicate (n j : ℕ) (c d : Char) :
    (List.replicate n c).getD j d = if j < n then c else d := by
  by_cases hj : j < n <;>
    simp [List.getD_eq_getElem?_getD, List.getElem?_replicate, hj]

lemma getD_set_ne (l : List Char) (idx j : ℕ) (a d : Char) (h : j ≠ idx) :
    (l.set idx a).getD j d = l.getD j d := by
  simp [List.getD_eq_getElem?_getD, List.getElem?_set_ne (Ne.symm h)]

lemma getD_set_self (l : List Char) (idx : ℕ) (a d : Char) (h : idx < l.length) :
    (l.set idx a).getD idx d = a := by
  simp [List.getD_eq_getElem?_getD, List.getElem?_set_self, h]

lemma generate_timeseries_json_checked_eq (vals : ℤ → ℤ → ℚ × ℚ × ℚ)
    (days width : ℕ) (b p : ℤ) (s : String) :
    generate_timeseries_json_checked vals days width b p s
      = if DATETIME_MIN_ORDINAL ≤ p - ((days / 2 : ℕ) : ℤ)
            ∧ p - ((days / 2 : ℕ) : ℤ) ≤ DATETIME_MAX_ORDINAL then
          (if days = 0
              ∨ (p - ((days / 2 : ℕ) : ℤ)) + ((days : ℤ) - 1) ≤ DATETIME_MAX_ORDINAL then
            Except.ok (generate_timeseries_json vals days width b p s)
          else Except.error (PyError.raw "OverflowError: date value out of range"))
        else Except.error (PyError.raw "OverflowError: date value out of range") := by
  by_cases hA : DATETIME_MIN_ORDINAL ≤ p - ((days / 2 : ℕ) : ℤ)
      ∧ p - ((days / 2 : ℕ) : ℤ) ≤ DATETIME_MAX_ORDINAL
  · simp only [generate_timeseries_json_checked, date_sub_days, if_pos hA]
  · simp only [generate_timeseries_json_checked, date_sub_days, if_neg hA]

lemma chart_pos_bounds (m : ℕ) (hm : 1 ≤ m) (v : ℚ) (h1 : -1 ≤ v) (h2 : v ≤ 1) :
    1 ≤ chart_pos v m ∧ chart_pos v m ≤ 2 * (m : ℤ) - 1 := by
  have hm' : (0 : ℚ) ≤ (m : ℚ) - 1 := by
    have : (1 : ℚ) ≤ (m : ℚ) := by exact_mod_cast hm
    linarith
  have hlow : ((-(m : ℤ) + 1 : ℤ) : ℚ) ≤ v * ((m : ℚ) - 1) := by
    push_cast
    nlinarith
  have hupp : v * ((m : ℚ) - 1) ≤ (((m : ℤ) - 1 : ℤ) : ℚ) := by
    push_cast
    nlinarith
  have hl := Int.le_floor.mpr hlow
  have hu := Int.floor_mono hupp
  rw [Int.floor_intCast] at hu
  unfold chart_pos
  omega

lemma cycle_value_add_period (P : ℕ) (hP : P ≠ 0) (b t : ℤ) :
    cycle_value P b (t + (P : ℤ)) = cycle_value P b t := by
  unfold cycle_value
  have hP' : ((P : ℕ) : ℝ) ≠ 0 := Nat.cast_ne_zero.mpr hP
  have harg : 2 * Real.pi * (((t + (P : ℤ)) - b : ℤ) : ℝ) / (P : ℝ)
      = 2 * Real.pi * ((t - b : ℤ) : ℝ) / (P : ℝ) + 2 * Real.pi := by
    push_cast
    field_simp
    ring
  rw [harg, Real.sin_add_two_pi]

/-! ## Claims -/

/-- C1: `is_critical_day` returns `is_critical = true` iff at least one of the
three values has absolute value at most 0.05 (the boundary is inclusive); the
returned list contains a cycle name iff that cycle's absolute value is at most
0.05, always in the fixed order Physical, Emotional, Intellectual; and
`is_critical_day(0.01, -0.02, 0.03)` yields
`(true, ["Physical", "Emotional", "Intellectual"])`. -/
theorem is_critical_day_spec (p e i : ℚ) :
    ((is_critical_day p e i).1 = true ↔ (|p| ≤ 0.05 ∨ |e| ≤ 0.05 ∨ |i| ≤ 0.05))
  ∧ ("Physical" ∈ (is_critical_day p e i).2 ↔ |p| ≤ 0.05)
  ∧ ("Emotional" ∈ (is_critical_day p e i).2 ↔ |e| ≤ 0.05)
  ∧ ("Intellectual" ∈ (is_critical_day p e i).2 ↔ |i| ≤ 0.05)
  ∧ (is_critical_day p e i).2.Sublist ["Physical", "Emotional", "Intellectual"]
  ∧ is_critical_day 0.01 (-0.02) 0.03 = (true, ["Physical", "Emotional", "Intellectual"]) := by
  have hthr : CRITICAL_DAY_THRESHOLD = 0.05 := rfl
  have hconc : is_critical_day 0.01 (-0.02) 0.03
      = (true, ["Physical", "Emotional", "Intellectual"]) := by
    have e1 : |(0.01 : ℚ)| ≤ CRITICAL_DAY_THRESHOLD := by
      rw [hthr, abs_of_nonneg (by norm_num : (0 : ℚ) ≤ 0.01)]
      norm_num
    have e2 : |(0.02 : ℚ)| ≤ CRITICAL_DAY_THRESHOLD := by
      rw [hthr, abs_of_nonneg (by norm_num : (0 : ℚ) ≤ 0.02)]
      norm_num
    have e3 : |(0.03 : ℚ)| ≤ CRITICAL_DAY_THRESHOLD := by
      rw [hthr, abs_of_nonneg (by norm_num : (0 : ℚ) ≤ 0.03)]
      norm_num
    simp [is_critical_day, e1, e2, e3]
  by_cases h1 : |p| ≤ (0.05 : ℚ) <;> by_cases h2 : |e| ≤ (0.05 : ℚ) <;>
      by_cases h3 : |i| ≤ (0.05 : ℚ) <;>
    exact ⟨by simp [is_critical_day, hthr, h1, h2, h3],
           by simp [is_critical_day, hthr, h1, h2, h3],
           by simp [is_critical_day, hthr, h1, h2, h3],
           by simp [is_critical_day, hthr, h1, h2, h3],
           by simp [is_critical_day, hthr, h1, h2, h3],
           hconc⟩

/-- C2: for every width at least 12, with `midwidth = width / 2`, and every
cycle value in `[-1, 1]`, the mapped column `floor(value * (midwidth - 1)) +
midwidth` of each of the three cycles lies within `[0, width - 1]`, so the
indexed write of each marker into a line of length `width` is in bounds. -/
theorem calculate_chart_positions_in_bounds (width : ℕ) (hw : 12 ≤ width)
    (p e i : ℚ) (hp1 : -1 ≤ p) (hp2 : p ≤ 1) (he1 : -1 ≤ e) (he2 : e ≤ 1)
    (hi1 : -1 ≤ i) (hi2 : i ≤ 1) :
    (0 ≤ (calculate_chart_positions (width / 2) p e i).1
      ∧ (calculate_chart_positions (width / 2) p e i).1 < (width : ℤ))
  ∧ (0 ≤ (calculate_chart_positions (width / 2) p e i).2.1
      ∧ (calculate_chart_positions (width / 2) p e i).2.1 < (width : ℤ))
  ∧ (0 ≤ (calculate_chart_positions (width / 2) p e i).2.2
      ∧ (calculate_chart_positions (width / 2) p e i).2.2 < (width : ℤ)) := by
  have hm : 1 ≤ width / 2 := by omega
  have hkey : 2 * (width / 2) ≤ width := by omega
  obtain ⟨a1, a2⟩ := chart_pos_bounds (width / 2) hm p hp1 hp2
  obtain ⟨b1, b2⟩ := chart_pos_bounds (width / 2) hm e he1 he2
  obtain ⟨c1, c2⟩ := chart_pos_bounds (width / 2) hm i hi1 hi2
  dsimp only [calculate_chart_positions]
  refine ⟨⟨?_, ?_⟩, ⟨?_, ?_⟩, ⟨?_, ?_⟩⟩ <;> omega

/-- Witness for C2 at `width = 12` and all three values `0`. -/
theorem calculate_chart_positions_in_bounds_witness :
    (12 ≤ 12 ∧ (-1 : ℚ) ≤ 0 ∧ (0 : ℚ) ≤ 1)
  ∧ (0 ≤ (calculate_chart_positions (12 / 2) 0 0 0).1
      ∧ (calculate_chart_positions (12 / 2) 0 0 0).1 < (12 : ℤ)) :=
  ⟨⟨by decide, neg_nonpos.mpr zero_le_one, zero_le_one⟩,
   (calculate_chart_positions_in_bounds 12 (by decide) 0 0 0
      (neg_nonpos.mpr zero_le_one) zero_le_one (neg_nonpos.mpr zero_le_one) zero_le_one
      (neg_nonpos.mpr zero_le_one) zero_le_one).1⟩

/-- C7: both the printed chart header (lines 208-209) and the exporter's
`cycle_repeats` section compute the two days-until-repeat figures by exactly
`644 - (days_alive % 644)` and `21252 - (days_alive % 21252)`, with
`days_alive = plot_date - birthdate` in whole days. -/
theorem cycle_repeats_formulas (vals : ℤ → ℤ → ℚ × ℚ × ℚ) (days width : ℕ)
    (b p : ℤ) (s : String) :
    (generate_timeseries_json vals days width b p s).cycle_repeats.physical_emotional_repeat_in_days
      = 644 - (p - b) % 644
  ∧ (generate_timeseries_json vals days width b p s).cycle_repeats.all_cycles_repeat_in_days
      = 21252 - (p - b) % 21252
  ∧ print_chart_header_cycle_info (p - b)
      = ((generate_timeseries_json vals days width b p s).cycle_repeats.physical_emotional_repeat_in_days,
         (generate_timeseries_json vals days width b p s).cycle_repeats.all_cycles_repeat_in_days) :=
  ⟨rfl, rfl, rfl⟩

/-- C8: for every birthdate and target date and each cycle with period
P in {23, 28, 33}, the cycle value computed by `calculate_biorhythm_values`
(as `sin(2 * pi * days_alive / P)`) at the target date equals the value at
`target_date + P` days within tolerance `1e-9` (in exact real arithmetic the
two are equal). -/
theorem calculate_biorhythm_values_periodicity (b t : ℤ) :
    |(calculate_biorhythm_values b t).1 - (calculate_biorhythm_values b (t + 23)).1| ≤ 1e-9
  ∧ |(calculate_biorhythm_values b t).2.1 - (calculate_biorhythm_values b (t + 28)).2.1| ≤ 1e-9
  ∧ |(calculate_biorhythm_values b t).2.2 - (calculate_biorhythm_values b (t + 33)).2.2| ≤ 1e-9 := by
  have h23 := cycle_value_add_period PHYSICAL_CYCLE_DAYS (by decide) b t
  have h28 := cycle_value_add_period EMOTIONAL_CYCLE_DAYS (by decide) b t
  have h33 := cycle_value_add_period INTELLECTUAL_CYCLE_DAYS (by decide) b t
  have e23 : ((PHYSICAL_CYCLE_DAYS : ℕ) : ℤ) = 23 := rfl
  have e28 : ((EMOTIONAL_CYCLE_DAYS : ℕ) : ℤ) = 28 := rfl
  have e33 : ((INTELLECTUAL_CYCLE_DAYS : ℕ) : ℤ) = 33 := rfl
  rw [e23] at h23
  rw [e28] at h28
  rw [e33] at h33
  refine ⟨?_, ?_, ?_⟩ <;>
    simp [calculate_biorhythm_values, h23, h28, h33] <;> norm_num

/-- C9: for every birthdate and plot date (plot dates before birth included)
the exported repeat figures satisfy `1 ≤ pe ≤ 644` and `1 ≤ all ≤ 21252`;
when `days_alive` is an exact multiple of a joint period the figure is the
full period itself, because `%` has non-negative (Python) semantics. -/
theorem cycle_repeats_bounds (vals : ℤ → ℤ → ℚ × ℚ × ℚ) (days width : ℕ)
    (b p : ℤ) (s : String) :
    (1 ≤ (generate_timeseries_json vals days width b p s).cycle_repeats.physical_emotional_repeat_in_days
      ∧ (generate_timeseries_json vals days width b p s).cycle_repeats.physical_emotional_repeat_in_days ≤ 644)
  ∧ (1 ≤ (generate_timeseries_json vals days width b p s).cycle_repeats.all_cycles_repeat_in_days
      ∧ (generate_timeseries_json vals days width b p s).cycle_repeats.all_cycles_repeat_in_days ≤ 21252)
  ∧ ((p - b) % 644 = 0 →
      (generate_timeseries_json vals days width b p s).cycle_repeats.physical_emotional_repeat_in_days = 644)
  ∧ ((p - b) % 21252 = 0 →
      (generate_timeseries_json vals days width b p s).cycle_repeats.all_cycles_repeat_in_days = 21252) := by
  have hpe : (generate_timeseries_json vals days width b p s).cycle_repeats.physical_emotional_repeat_in_days
      = 644 - (p - b) % 644 := rfl
  have hall : (generate_timeseries_json vals days width b p s).cycle_repeats.all_cycles_repeat_in_days
      = 21252 - (p - b) % 21252 := rfl
  have h1 : 0 ≤ (p - b) % 644 := Int.emod_nonneg _ (by decide)
  have h2 : (p - b) % 644 < 644 := Int.emod_lt_of_pos _ (by decide)
  have h3 : 0 ≤ (p - b) % 21252 := Int.emod_nonneg _ (by decide)
  have h4 : (p - b) % 21252 < 21252 := Int.emod_lt_of_pos _ (by decide)
  refine ⟨⟨?_, ?_⟩, ⟨?_, ?_⟩, ?_, ?_⟩ <;> omega

/-- Witness for C9 at `days_alive = 0`, an exact multiple of both joint
periods: the figures are the full periods 644 and 21252. -/
theorem cycle_repeats_bounds_witness :
    ((0 : ℤ) - 0) % 644 = 0
  ∧ (generate_timeseries_json zero_vals 1 12 0 0 "vertical").cycle_repeats.physical_emotional_repeat_in_days = 644
  ∧ (generate_timeseries_json zero_vals 1 12 0 0 "vertical").cycle_repeats.all_cycles_repeat_in_days = 21252 :=
  ⟨by decide,
   (cycle_repeats_bounds zero_vals 1 12 0 0 "vertical").2.2.1 (by decide),
   (cycle_repeats_bounds zero_vals 1 12 0 0 "vertical").2.2.2 (by decide)⟩

/-- C10: `generate_timeseries_json` never validates its `chart_orientation`
argument: for every string `s` the export succeeds and wires `s` verbatim into
`meta.chart_orientation` — while the constructor rejects an unrecognized
orientation such as "diagonal" for every width and days. -/
theorem chart_orientation_not_validated :
    (∀ (vals : ℤ → ℤ → ℚ × ℚ × ℚ) (days width : ℕ) (b p : ℤ) (s : String),
      (generate_timeseries_json vals days width b p s).meta.chart_orientation = s)
  ∧ (∀ w d : ℤ, except_is_ok (biorhythm_calculator_init w d "diagonal") = false) := by
  constructor
  · intro vals days width b p s
    rfl
  · intro w d
    simp only [biorhythm_calculator_init]
    split_ifs with h1 h2 h3
    · rfl
    · rfl
    · exact absurd h3 (by decide)
    · rfl

/-- C3: for every birthdate, explicit plot date and a calculator configured
with `days = d`, the exported `data` field is an ordered sequence of exactly
`d` records, the `k`-th belonging to calendar day `plot_date - d / 2 + k`
(so the window is the `d` consecutive days starting at `plot_date -
floor(d / 2)`), each record carrying date, days_alive and the three cycle
values with the critical cycle names of that day, and `meta.days_alive` is
the whole-day difference `plot_date - birthdate`. -/
theorem generate_timeseries_json_window (vals : ℤ → ℤ → ℚ × ℚ × ℚ)
    (days width : ℕ) (b p : ℤ) (s : String) (hd : 1 ≤ days) :
    (generate_timeseries_json vals days width b p s).data.length = days
  ∧ (∀ k, k < days →
      (generate_timeseries_json vals days width b p s).data.getD k dummy_entry =
        { date := p - ((days / 2 : ℕ) : ℤ) + (k : ℤ),
          days_alive := p - ((days / 2 : ℕ) : ℤ) + (k : ℤ) - b,
          physical := (vals b (p - ((days / 2 : ℕ) : ℤ) + (k : ℤ))).1,
          emotional := (vals b (p - ((days / 2 : ℕ) : ℤ) + (k : ℤ))).2.1,
          intellectual := (vals b (p - ((days / 2 : ℕ) : ℤ) + (k : ℤ))).2.2,
          critical_cycles :=
            (is_critical_day (vals b (p - ((days / 2 : ℕ) : ℤ) + (k : ℤ))).1
              (vals b (p - ((days / 2 : ℕ) : ℤ) + (k : ℤ))).2.1
              (vals b (p - ((days / 2 : ℕ) : ℤ) + (k : ℤ))).2.2).2 })
  ∧ (generate_timeseries_json vals days width b p s).meta.days_alive = p - b := by
  have hdata : (generate_timeseries_json vals days width b p s).data
      = (List.range days).map
          (timeseries_entry_at vals b (p - ((days / 2 : ℕ) : ℤ))) := rfl
  have hlen : (generate_timeseries_json vals days width b p s).data.length = days := by
    rw [hdata, List.length_map, List.length_range]
  refine ⟨hlen, ?_, rfl⟩
  intro k hk
  rw [hdata]
  simp only [List.getD_eq_getElem?_getD, List.getElem?_map, List.getElem?_range, hk,
    Option.map_some, Option.getD_some]
  rfl

/-- Witness for C3: `days = 7`, birthdate day 0, plot date day 12868 (the
whole-day difference between 1990-05-15 and 2025-08-07): exactly 7 records
and `meta.days_alive = 12868`. -/
theorem generate_timeseries_json_window_witness :
    1 ≤ 7
  ∧ (generate_timeseries_json zero_vals 7 55 0 12868 "vertical").data.length = 7
  ∧ (generate_timeseries_json zero_vals 7 55 0 12868 "vertical").meta.days_alive = 12868 :=
  ⟨by decide,
   (generate_timeseries_json_window zero_vals 7 55 0 12868 "vertical" (by decide)).1,
   ((generate_timeseries_json_window zero_vals 7 55 0 12868 "vertical" (by decide)).2.2).trans
     (by decide)⟩

/-- C4: constructing a `BiorhythmCalculator` raises a configuration error iff
`width` or `days` is not a positive integer or the orientation, compared
case-insensitively, is not vertical/horizontal; on success the effective
width is `max(width, 12)` (a small width is clamped up, not rejected), `days`
is stored as given and the orientation is stored lower-cased. -/
theorem biorhythm_calculator_init_spec (w d : ℤ) (o : String) :
    ((1 ≤ w ∧ 1 ≤ d ∧ (str_lower o = "vertical" ∨ str_lower o = "horizontal")) →
      biorhythm_calculator_init w d o =
        Except.ok
          { width := max w 12, days := d, orientation := str_lower o,
            midwidth := max w 12 / 2, middays := d / 2 })
  ∧ ((¬ 1 ≤ w ∨ ¬ 1 ≤ d ∨ ¬ (str_lower o = "vertical" ∨ str_lower o = "horizontal")) →
      ∃ msg, biorhythm_calculator_init w d o = Except.error msg) := by
  constructor
  · rintro ⟨hw, hd, ho⟩
    have h1 : ¬ w < 1 := by omega
    have h2 : ¬ d < 1 := by omega
    have h3 : str_lower o ∈ (["vertical", "horizontal"] : List String) := by
      rcases ho with h | h <;> simp [h]
    simp [biorhythm_calculator_init, h1, h2, h3, MIN_CHART_WIDTH]
  · intro h
    by_cases h1 : w < 1
    · exact ⟨_, by simp only [biorhythm_calculator_init]; rw [if_pos h1]⟩
    by_cases h2 : d < 1
    · exact ⟨_, by simp only [biorhythm_calculator_init]; rw [if_neg h1, if_pos h2]⟩
    have h3 : str_lower o ∉ (["vertical", "horizontal"] : List String) := by
      rcases h with h | h | h
      · omega
      · omega
      · simpa using h
    exact ⟨_, by simp only [biorhythm_calculator_init]; rw [if_neg h1, if_neg h2, if_neg h3]⟩

/-- Witness for C4: `width = 5` succeeds with effective width 12 while
`days = 0` is a configuration error. -/
theorem biorhythm_calculator_init_spec_witness :
    ((1 : ℤ) ≤ 5 ∧ (1 : ℤ) ≤ 29
      ∧ (str_lower "vertical" = "vertical" ∨ str_lower "vertical" = "horizontal"))
  ∧ biorhythm_calculator_init 5 29 "vertical" =
      Except.ok
        { width := 12, days := 29, orientation := "vertical", midwidth := 6, middays := 14 }
  ∧ (∃ msg, biorhythm_calculator_init 55 0 "vertical" = Except.error msg) := by
  have hcond : (1 : ℤ) ≤ 5 ∧ (1 : ℤ) ≤ 29
      ∧ (str_lower "vertical" = "vertical" ∨ str_lower "vertical" = "horizontal") :=
    ⟨by decide, by decide, Or.inl (by decide)⟩
  refine ⟨hcond, ?_, ?_⟩
  · have h := (biorhythm_calculator_init_spec 5 29 "vertical").1 hcond
    rw [h]
    congr 1
  · exact (biorhythm_calculator_init_spec 55 0 "vertical").2 (Or.inr (Or.inl (by decide)))

/-- C5 counterexample: with the valid configuration `days = 3` (so
`middays = 1`) and the valid plot date 0001-01-01 (ordinal 1),
`generate_timeseries_json` computes
`start_date = plot_date - timedelta(days=1)`, which raises `OverflowError`;
having no `try/except`, the method lets the raw exception reach the caller —
not a `BiorhythmError` — refuting "never the raw internal exception"; and
when the chart body of `generate_chart` fails with the same error, the
already-printed header stays on stdout next to the wrapped error, refuting
"all-or-nothing, no partial output". -/
theorem export_raw_error_escape :
    generate_timeseries_json_checked zero_vals 3 55 1 1 "vertical"
      = Except.error (PyError.raw "OverflowError: date value out of range")
  ∧ payload_error_is_wrapped
      (generate_timeseries_json_checked zero_vals 3 55 1 1 "vertical") = false
  ∧ generate_chart_run ["BIORHYTHM CHART (VERTICAL) - FOR ENTERTAINMENT ONLY"]
        (Except.error "OverflowError: date value out of range")
      = (["BIORHYTHM CHART (VERTICAL) - FOR ENTERTAINMENT ONLY"],
         ChartOutcome.biorhythmError
           "Failed to generate chart: OverflowError: date value out of range") :=
  ⟨rfl, rfl, by decide⟩

/-- C5 (amended): `generate_chart` wraps every failure of its chart body into
a single `BiorhythmError` carrying the underlying cause — its caller never
observes a raw exception — but an errored call retains the output already
printed before the failure (the header), so a failed chart call can leave
partial output; `generate_timeseries_json` has no handler, so it never
produces the domain error: a date-arithmetic failure inside it escapes raw,
and when no failure arises the caller receives one complete payload holding
all `days` records. -/
theorem error_propagation_spec :
    (∀ (header lines : List String),
      generate_chart_run header (Except.ok lines)
        = (header ++ lines, ChartOutcome.ok (header ++ lines)))
  ∧ (∀ (header : List String) (e : String),
      generate_chart_run header (Except.error e)
        = (header, ChartOutcome.biorhythmError ("Failed to generate chart: " ++ e)))
  ∧ (∀ (header : List String) (body : Except String (List String)),
      chart_outcome_is_raw (generate_chart_run header body).2 = false)
  ∧ (∀ (vals : ℤ → ℤ → ℚ × ℚ × ℚ) (days width : ℕ) (b p : ℤ) (s : String),
      payload_error_is_wrapped (generate_timeseries_json_checked vals days width b p s)
        = false)
  ∧ (∀ (vals : ℤ → ℤ → ℚ × ℚ × ℚ) (days width : ℕ) (b p : ℤ) (s : String)
      (payload : TimeseriesPayload),
      generate_timeseries_json_checked vals days width b p s = Except.ok payload →
        payload.data.length = days) := by
  refine ⟨fun header lines => rfl, fun header e => rfl, ?_, ?_, ?_⟩
  · intro header body
    cases body <;> rfl
  · intro vals days width b p s
    rw [generate_timeseries_json_checked_eq]
    split_ifs <;> rfl
  · intro vals days width b p s payload h
    rw [generate_timeseries_json_checked_eq] at h
    split_ifs at h with h1 h2
    · injection h with h2x
      subst h2x
      have hdata : (generate_timeseries_json vals days width b p s).data
          = (List.range days).map
              (timeseries_entry_at vals b (p - ((days / 2 : ℕ) : ℤ))) := rfl
      rw [hdata, List.length_map, List.length_range]

/-- Witness for the amended C5 at an in-range window: `days = 1`, birthdate
ordinal 1, plot date ordinal 100 — the export succeeds with one complete
record. -/
theorem error_propagation_spec_witness :
    generate_timeseries_json_checked zero_vals 1 12 1 100 "vertical"
      = Except.ok (generate_timeseries_json zero_vals 1 12 1 100 "vertical")
  ∧ (generate_timeseries_json zero_vals 1 12 1 100 "vertical").data.length = 1 :=
  ⟨rfl,
   error_propagation_spec.2.2.2.2 zero_vals 1 12 1 100 "vertical"
     (generate_timeseries_json zero_vals 1 12 1 100 "vertical") rfl⟩

/-- C6: every vertical chart line has length `width`; the background fill is
a dash on the plot date, else a dot on a critical day, else a space; the
center column holds the colon when no marker lands on it; the three markers
p/e/i (uppercase on a critical day) sit at their mapped columns when those
are pairwise distinct; any two coinciding markers become `*` (`!` when
critical) at the shared column — a three-way overlap collapsing the same
way — while a non-colliding third marker keeps its own letter. -/
theorem create_chart_line_spec (width midwidth p_pos e_pos i_pos : ℕ) (pl cr : Bool)
    (hm : midwidth < width) (hp : p_pos < width) (he : e_pos < width) (hi : i_pos < width) :
    (create_chart_line width midwidth p_pos e_pos i_pos pl cr).length = width
  ∧ (∀ j, j < width → j ≠ midwidth → j ≠ p_pos → j ≠ e_pos → j ≠ i_pos →
      (create_chart_line width midwidth p_pos e_pos i_pos pl cr).getD j '?'
        = (if pl then '-' else if cr then '.' else ' '))
  ∧ (midwidth ≠ p_pos → midwidth ≠ e_pos → midwidth ≠ i_pos →
      (create_chart_line width midwidth p_pos e_pos i_pos pl cr).getD midwidth '?' = ':')
  ∧ (p_pos ≠ e_pos → e_pos ≠ i_pos → i_pos ≠ p_pos →
      (create_chart_line width midwidth p_pos e_pos i_pos pl cr).getD p_pos '?'
          = (if cr then 'P' else 'p')
      ∧ (create_chart_line width midwidth p_pos e_pos i_pos pl cr).getD e_pos '?'
          = (if cr then 'E' else 'e')
      ∧ (create_chart_line width midwidth p_pos e_pos i_pos pl cr).getD i_pos '?'
          = (if cr then 'I' else 'i'))
  ∧ (p_pos = e_pos → p_pos ≠ i_pos →
      (create_chart_line width midwidth p_pos e_pos i_pos pl cr).getD p_pos '?'
          = (if cr then '!' else '*')
      ∧ (create_chart_line width midwidth p_pos e_pos i_pos pl cr).getD i_pos '?'
          = (if cr then 'I' else 'i'))
  ∧ (e_pos = i_pos → e_pos ≠ p_pos →
      (create_chart_line width midwidth p_pos e_pos i_pos pl cr).getD e_pos '?'
          = (if cr then '!' else '*')
      ∧ (create_chart_line width midwidth p_pos e_pos i_pos pl cr).getD p_pos '?'
          = (if cr then 'P' else 'p'))
  ∧ (i_pos = p_pos → i_pos ≠ e_pos →
      (create_chart_line width midwidth p_pos e_pos i_pos pl cr).getD i_pos '?'
          = (if cr then '!' else '*')
      ∧ (create_chart_line width midwidth p_pos e_pos i_pos pl cr).getD e_pos '?'
          = (if cr then 'E' else 'e'))
  ∧ (p_pos = e_pos → e_pos = i_pos →
      (create_chart_line width midwidth p_pos e_pos i_pos pl cr).getD p_pos '?'
          = (if cr then '!' else '*')) := by
  refine ⟨?_, ?_, ?_, ?_, ?_, ?_, ?_, ?_⟩
  · simp only [create_chart_line]
    split_ifs <;> simp
  · intro j hj hjm hjp hje hji
    simp only [create_chart_line]
    split_ifs <;>
      simp [List.getElem_set_ne, List.getElem_replicate, List.length_set,
        List.length_replicate, hj, Ne.symm hjm, Ne.symm hjp, Ne.symm hje, Ne.symm hji]
  · intro hmp hme hmi
    simp only [create_chart_line]
    split_ifs <;>
      simp [List.getElem_set_ne, List.getElem_set_self, List.length_set,
        List.length_replicate, hm, Ne.symm hmp, Ne.symm hme, Ne.symm hmi]
  · intro hpe hei hip
    simp only [create_chart_line, if_neg hpe, if_neg hei, if_neg hip]
    refine ⟨?_, ?_, ?_⟩ <;>
      simp [List.getElem_set_ne, List.getElem_set_self, List.length_set,
        List.length_replicate, hp, he, hi, hpe, hei, hip,
        Ne.symm hpe, Ne.symm hei, Ne.symm hip]
  · intro hpe hpi
    subst hpe
    simp only [create_chart_line, if_pos rfl, if_neg hpi, if_neg (Ne.symm hpi)]
    constructor <;>
      simp [List.getElem_set_ne, List.getElem_set_self, List.length_set,
        List.length_replicate, hp, hi, hpi, Ne.symm hpi]
  · intro hei hep
    subst hei
    simp only [create_chart_line, if_neg (Ne.symm hep), if_pos rfl, if_neg hep]
    constructor <;>
      simp [List.getElem_set_ne, List.getElem_set_self, List.length_set,
        List.length_replicate, hp, he, hep, Ne.symm hep]
  · intro hip hie
    subst hip
    simp only [create_chart_line, if_neg hie, if_neg (Ne.symm hie), if_pos rfl]
    constructor <;>
      simp [List.getElem_set_ne, List.getElem_set_self, List.length_set,
        List.length_replicate, he, hi, hie, Ne.symm hie]
  · intro hpe hei
    subst hpe
    subst hei
    simp only [create_chart_line, if_pos rfl]
    simp [List.getElem_set_self, List.length_set, List.length_replicate, hp]

/-- Witness for C6 at `width = 12`, `midwidth = 6`, distinct marker columns
3, 4, 5, a non-plot non-critical day: the physical marker lands as `p`. -/
theorem create_chart_line_spec_witness :
    (6 < 12 ∧ 3 < 12 ∧ 4 < 12 ∧ 5 < 12 ∧ (3 : ℕ) ≠ 4 ∧ (4 : ℕ) ≠ 5 ∧ (5 : ℕ) ≠ 3)
  ∧ (create_chart_line 12 6 3 4 5 false false).getD 3 '?' = 'p' :=
  ⟨by decide,
   (((create_chart_line_spec 12 6 3 4 5 false false (by decide) (by decide) (by decide)
      (by decide)).2.2.2.1 (by decide) (by decide) (by decide)).1).trans (by decide)⟩

end Biorythm
